import Mathlib

/-!
Verification of the search-augmented response orchestration layer:
`TavilySearch` (adapters/shared/tavily_search.py) and
`BedrockChatWithSearchAdapter` (adapters/bedrock/web_search.py).

Shallow embedding conventions:
* Python exceptions are modelled with `Except String α`: `Except.error msg`
  is an exception (carrying `str(e)`) propagating past the function,
  `Except.ok v` is a normal return.
* Python dicts with a known field set are modelled as structures of
  `Option` fields; a key absent from the dict is `none`.
* External effects (the Secrets Manager call, the HTTP request to
  api.tavily.com, the base Bedrock adapter) are modelled as oracle
  functions supplied in an environment record, indexed by how many times
  the effect has been performed, so that retry behaviour is observable.
* `time.sleep` and the jitter only affect wall-clock timing, not values;
  they are not modelled.
-/

namespace WebSearch

/-- One entry of the Tavily `results` array: a JSON object whose
`title` / `url` / `content` keys may each be absent. -/
structure SearchResult where
  title : Option String
  url : Option String
  content : Option String
  deriving DecidableEq

/-- The dict returned by `make_tavily_request` / `search`, and consumed by
`format_search_results` and the orchestrator.  Mirrors the keys the code
reads: `error`, `query`, `time`, `results`.  A key that is absent from the
dict is `none`.  The Python `time` value is a float rendered with `:.2f`;
floating point is outside the embedding, so the model stores the rendered
text (no verified claim depends on this field's value). -/
structure SearchResponse where
  error : Option String
  query : Option String
  time : Option String
  results : Option (List SearchResult)
  deriving DecidableEq

/-- Python truthiness of the `search_results` dict: a dict is truthy
iff it is non-empty, i.e. at least one key is present. -/
def SearchResponse.isTruthy (r : SearchResponse) : Bool :=
  r.error.isSome || r.query.isSome || r.time.isSome || r.results.isSome

/-- The empty dict `{}`: structurally present but with no keys. -/
def SearchResponse.empty : SearchResponse :=
  { error := none, query := none, time := none, results := none }

/-- A dict holding only an `error` key, as built by the error branches of
`make_tavily_request`. -/
def SearchResponse.onlyError (msg : String) : SearchResponse :=
  { error := some msg, query := none, time := none, results := none }

/-! ## get_tavily_api_key -/

/-- Environment of one `get_tavily_api_key` call:
`secret_arn` is `os.environ.get('TAVILY_API_KEY_SECRET_ARN')` (`none` when
unset), and `get_secret_value` is the outcome of the Secrets Manager call:
`Except.error` when it raises, otherwise the `SecretString` value of the
response (which `.get` may report absent, hence `Option`). -/
structure SecretEnv where
  secret_arn : Option String
  get_secret_value : Except String (Option String)

/-- `TavilySearch.get_tavily_api_key`.  Raises (returns `Except.error`)
when the environment variable is unset or falsy (the empty string), and
re-raises any exception of the Secrets Manager call. -/
def get_tavily_api_key (env : SecretEnv) : Except String (Option String) :=
  match env.secret_arn with
  | none => Except.error "TAVILY_API_KEY_SECRET_ARN environment variable is not set"
  | some arn =>
    if arn = "" then
      Except.error "TAVILY_API_KEY_SECRET_ARN environment variable is not set"
    else
      env.get_secret_value

/-! ## make_tavily_request -/

/-- Outcome of one HTTP attempt (`urlopen` + `read` + `decode` +
`json.loads`) against the Tavily endpoint:
* `success r` — 2xx response whose body parses to the dict `r`;
* `httpError msg` — `urllib.error.HTTPError` raised (non-2xx status),
  carrying `str(e)`; this is the only exception type the code catches;
* `raised msg` — any other exception of the attempt
  (`urllib.error.URLError` on connection failure, `UnicodeDecodeError`,
  `json.JSONDecodeError` on a malformed body, ...), which the
  `except urllib.error.HTTPError` clause does not catch. -/
inductive HttpOutcome where
  | success (resp : SearchResponse)
  | httpError (msg : String)
  | raised (msg : String)
  deriving DecidableEq

/-- `true` iff the attempt raises an exception other than `HTTPError`. -/
def HttpOutcome.isRaised : HttpOutcome → Bool
  | .raised _ => true
  | _ => false

/-- Environment of one logical `make_tavily_request` operation.  The
attempt with retry counter `k` first performs the API-key fetch
(`secret k`, the outcome of `get_tavily_api_key`, re-fetched on every
attempt since the recursion re-enters the key block) and then, if the key
fetch did not raise, the HTTP attempt (`http k`). -/
structure SearchEnv where
  secret : Nat → Except String (Option String)
  http : Nat → HttpOutcome

def MAX_RETRIES : Nat := 3

/-- `TavilySearch.make_tavily_request endpoint payload retries`.
The `endpoint` and `payload` arguments do not influence the control
flow under verification (their effect on the provider is part of the
`SearchEnv` oracle), but are kept for shape.  Branches, in source order:
* adding the API key to the payload: if `get_tavily_api_key` raises,
  return `{"error": "Failed to get API key: " ++ str(e)}`;
* the HTTP attempt succeeds: return the parsed JSON dict;
* the attempt raises `HTTPError`: if `retries < MAX_RETRIES`, sleep and
  recurse with `retries + 1`, else return
  `{"error": "API request failed after 3 retries: " ++ str(e)}`;
* the attempt raises anything else: the exception propagates. -/
def make_tavily_request (env : SearchEnv) (endpoint : String)
    (payload : List (String × String)) (retries : Nat) :
    Except String SearchResponse :=
  match env.secret retries with
  | Except.error e => Except.ok (SearchResponse.onlyError ("Failed to get API key: " ++ e))
  | Except.ok _apiKey =>
    match env.http retries with
    | HttpOutcome.success resp => Except.ok resp
    | HttpOutcome.raised e => Except.error e
    | HttpOutcome.httpError e =>
      if retries < MAX_RETRIES then
        make_tavily_request env endpoint payload (retries + 1)
      else
        Except.ok (SearchResponse.onlyError
          ("API request failed after " ++ toString MAX_RETRIES ++ " retries: " ++ e))
termination_by MAX_RETRIES - retries
decreasing_by simp only [MAX_RETRIES] at *; omega

/-- Number of HTTP requests the attempt chain starting at counter
`retries` issues: the instrumentation of `make_tavily_request` that counts
`urlopen` calls.  A key-fetch failure issues none; every entered attempt
issues one; only the caught `HTTPError` branch with retry budget left
continues. -/
def tavily_http_attempts (env : SearchEnv) (retries : Nat) : Nat :=
  match env.secret retries with
  | Except.error _ => 0
  | Except.ok _ =>
    match env.http retries with
    | HttpOutcome.success _ => 1
    | HttpOutcome.raised _ => 1
    | HttpOutcome.httpError _ =>
      if retries < MAX_RETRIES then
        1 + tavily_http_attempts env (retries + 1)
      else
        1
termination_by MAX_RETRIES - retries
decreasing_by simp only [MAX_RETRIES] at *; omega

/-! ## search -/

/-- `TavilySearch.search search_query kwargs`: builds the payload
`{"query": search_query, "search_depth": "basic"}` extended with the
non-`none`-valued keyword arguments, and performs
`make_tavily_request "search" payload` with retry counter 0. -/
def search (env : SearchEnv) (search_query : String)
    (kwargs : List (String × Option String)) : Except String SearchResponse :=
  let payload := [("query", search_query), ("search_depth", "basic")] ++
    kwargs.filterMap (fun kv => kv.2.map (fun v => (kv.1, v)))
  make_tavily_request env "search" payload 0

/-! ## detect_dont_know -/

/-- `hasPre n h` is true iff the character list `n` is an initial segment
of `h` (the anchored step of Python's substring operator). -/
def hasPre : List Char → List Char → Bool
  | [], _ => true
  | _ :: _, [] => false
  | a :: as, b :: bs => (a == b) && hasPre as bs

/-- `hasSub n h` is Python's `n in h` on strings viewed as character
lists: `n` occurs contiguously somewhere in `h` (the empty needle occurs
everywhere). -/
def hasSub (needle : List Char) : List Char → Bool
  | [] => needle.isEmpty
  | b :: bs => hasPre needle (b :: bs) || hasSub needle bs

/-- Python's `n in h` on strings. -/
def strHasSub (needle haystack : String) : Bool :=
  hasSub needle.data haystack.data

/-- Python's `str.lower`, restricted to ASCII case mapping (the
character-by-character lowering `String.map Char.toLower`, written over
the character list so that it evaluates by structural recursion).  Python
also lowers non-ASCII letters; every uppercase character occurring in the
phrase table below is ASCII, and both `detect_dont_know` and the
specification predicate compared with it use this same lowering, so the
verified statements do not depend on the difference. -/
def pyLower (s : String) : String :=
  String.mk (s.data.map Char.toLower)

/-- The fixed phrase table of `TavilySearch.detect_dont_know`. -/
def dont_know_phrases : List String := [
  "I don't know",
  "I don't have",
  "I'm not sure",
  "I am not sure",
  "I do not know",
  "I do not have",
  "I cannot provide",
  "I can't provide",
  "I don't have access to",
  "I don't have information",
  "I don't have enough information",
  "I don't have current information",
  "I don't have real-time",
  "I cannot access",
  "I cannot browse",
  "I don't have the ability to search",
  "I don't have the capability to access",
  "I don't have up-to-date information",
  "I'm not able to search",
  "I'm not able to browse",
  "I'm not connected to the internet",
  "I don't have internet access",
  "My knowledge is limited to",
  "My training data only includes",
  "My training cut-off",
  "As an AI language model, I don't have access to",
  "Je ne sais pas",
  "Je n'ai pas",
  "Je ne suis pas sûr",
  "Je ne peux pas fournir",
  "Je n'ai pas accès à",
  "Je n'ai pas d'informations",
  "Je n'ai pas suffisamment d'informations",
  "Je ne connais pas",
  "אני לא יודע",
  "אין לי מידע",
  "אין לי גישה",
  "אני לא בטוח",
  "המידע אינו זמין",
  "אין ברשותי מידע"]

/-- `TavilySearch.detect_dont_know`: lowercase the response once, then
scan the phrase table, returning `true` on the first phrase whose
lowercase form occurs in the lowered response and `false` if none does.
A pure function of the response text and the static table. -/
def detect_dont_know (response : String) : Bool :=
  let response_lower := pyLower response
  dont_know_phrases.any (fun phrase => strHasSub (pyLower phrase) response_lower)

/-! ## format_search_results / enhance_prompt_with_search_results -/

/-- The per-result loop body of `format_search_results`, with the 1-based
index threaded through (`enumerate(results["results"], 1)`); absent
fields fall back to the literal placeholders of the source. -/
def format_results_list : Nat → List SearchResult → String
  | _, [] => ""
  | i, r :: rest =>
    "Result " ++ toString i ++ ":\n" ++
    "Title: " ++ r.title.getD "No title" ++ "\n" ++
    "URL: " ++ r.url.getD "No URL" ++ "\n" ++
    "Content: " ++ r.content.getD "No content" ++ "\n\n" ++
    format_results_list (i + 1) rest

/-- `TavilySearch.format_search_results`.  An `error` key short-circuits
to a one-line notice.  Otherwise: header, query (default
`"Unknown query"`), elapsed time (the source renders
`results.get('time', 0)` with `:.2f`, so an absent key prints `0.00`),
then the result list when the `results` key is present and non-empty,
else the no-results notice. -/
def format_search_results (results : SearchResponse) : String :=
  match results.error with
  | some e => "Error retrieving search results: " ++ e
  | none =>
    let header := "### SEARCH RESULTS ###\n\n" ++
      "Query: " ++ results.query.getD "Unknown query" ++ "\n" ++
      "Search time: " ++ results.time.getD "0.00" ++ " seconds\n\n"
    match results.results with
    | some rs =>
      if rs.isEmpty then header ++ "No search results found.\n\n"
      else header ++ format_results_list 1 rs
    | none => header ++ "No search results found.\n\n"

/-- The fixed opening instruction of
`enhance_prompt_with_search_results`. -/
def prompt_opening : String :=
  "I need you to answer the user's question using the search results provided below.\n\n"

/-- The fixed notice emitted when no (truthy) search-results dict is
passed to `enhance_prompt_with_search_results`. -/
def no_results_notice : String :=
  "No search results are available.\n\n"

/-- The fixed closing instruction block of
`enhance_prompt_with_search_results`. -/
def prompt_closing : String :=
  "Based on the search results above, please provide a comprehensive answer to the user's question. " ++
  "Include relevant information from the search results and cite sources where appropriate. " ++
  "If the search results don't contain relevant information, acknowledge this and provide the best answer you can " ++
  "based on your knowledge, clearly indicating what information comes from your knowledge versus the search results."

/-- `TavilySearch.enhance_prompt_with_search_results original_query
search_results`: the fixed opening instruction, the verbatim original
query, then — when the optional `search_results` dict is truthy (present
and non-empty, Python `if search_results:`) — the formatted results
block, else the fixed no-results notice, and finally the fixed closing
instruction. -/
def enhance_prompt_with_search_results (original_query : String)
    (search_results : Option SearchResponse) : String :=
  prompt_opening ++
  "User's original question: " ++ original_query ++ "\n\n" ++
  (match search_results with
   | some sr =>
     if sr.isTruthy then format_search_results sr
     else no_results_notice
   | none => no_results_notice) ++
  prompt_closing

/-! ## BedrockChatWithSearchAdapter.run -/

/-- The `webSearch` metadata entry written by the orchestrator. -/
structure WebSearchMeta where
  performed : Bool
  query : String
  resultsCount : Nat
  deriving DecidableEq

/-- The `metadata` mapping of a chat response: the `webSearch` key that the
orchestrator may insert or overwrite, plus the remaining entries, which no
code under verification reads or writes. -/
structure Metadata where
  webSearch : Option WebSearchMeta
  rest : List (String × String)
  deriving DecidableEq

/-- The dict a base-adapter `run` returns: `content` (read with
`.get("content", "")`, so possibly absent) and the optional `metadata`
mapping (`"metadata" in final_response`). -/
structure ChatResponse where
  content : Option String
  metadata : Option Metadata
  deriving DecidableEq

/-- Environment of one `BedrockChatWithSearchAdapter.run` request:
`baseRun i p` is the outcome of the `(i+1)`-th `super().run` invocation
when given prompt `p` (`Except.error` when the base adapter raises); the
non-prompt arguments (workspace id, images, documents, videos, user
groups, system prompts) are passed through identically to both
invocations and are part of this oracle.  `searchEnv` drives the
`TavilySearch.search` call. -/
structure OrchEnv where
  baseRun : Nat → String → Except String ChatResponse
  searchEnv : SearchEnv

/-- `BedrockChatWithSearchAdapter.run prompt`.  In source order:
* `super().run(prompt, ...)`; an exception here propagates (no handler);
* `TavilySearch.detect_dont_know(initial_response.get("content", ""))`;
  if `false`, return the initial response unchanged;
* otherwise, inside `try`: `TavilySearch.search(prompt)` — an exception
  from it is caught by the `except Exception` clause, returning the
  initial response; if its dict has an `"error"` key, return the initial
  response; else build the enhanced prompt, call `super().run` on it
  (an exception again caught, returning the initial response), and if the
  final response has a `"metadata"` key, set its `"webSearch"` entry to
  `{performed: True, query: prompt, resultsCount: len(results or [])}`
  before returning it; with no `"metadata"` key it is returned as-is. -/
def BedrockChatWithSearchAdapter.run (env : OrchEnv) (prompt : String) :
    Except String ChatResponse :=
  match env.baseRun 0 prompt with
  | Except.error e => Except.error e
  | Except.ok initial_response =>
    if detect_dont_know (initial_response.content.getD "") then
      match search env.searchEnv prompt [] with
      | Except.error _e => Except.ok initial_response
      | Except.ok search_results =>
        if search_results.error.isSome then
          Except.ok initial_response
        else
          let enhanced_prompt :=
            enhance_prompt_with_search_results prompt (some search_results)
          match env.baseRun 1 enhanced_prompt with
          | Except.error _e => Except.ok initial_response
          | Except.ok final_response =>
            match final_response.metadata with
            | some md =>
              Except.ok { final_response with
                metadata := some { md with
                  webSearch := some {
                    performed := true,
                    query := prompt,
                    resultsCount := (search_results.results.getD []).length } } }
            | none => Except.ok final_response
    else
      Except.ok initial_response

/-! ## Theorems -/

theorem hasPre_iff (n : List Char) : ∀ h : List Char,
    hasPre n h = true ↔ ∃ t, h = n ++ t := by
  induction n with
  | nil => intro h; simp [hasPre]
  | cons a as ih =>
    intro h
    cases h with
    | nil =>
      simp only [hasPre, List.cons_append]
      constructor
      · intro hfalse; cases hfalse
      · rintro ⟨t, ht⟩; cases ht
    | cons b bs =>
      simp only [hasPre, Bool.and_eq_true, beq_iff_eq, ih, List.cons_append,
        List.cons.injEq]
      constructor
      · rintro ⟨hab, t, ht⟩; exact ⟨t, hab.symm, ht⟩
      · rintro ⟨t, hba, ht⟩; exact ⟨hba.symm, t, ht⟩

theorem hasSub_iff (n : List Char) : ∀ h : List Char,
    hasSub n h = true ↔ ∃ pre post, h = pre ++ n ++ post := by
  intro h
  induction h with
  | nil =>
    simp only [hasSub, List.isEmpty_iff]
    constructor
    · intro hn; exact ⟨[], [], by simp [hn]⟩
    · rintro ⟨pre, post, hp⟩
      rcases List.append_eq_nil.mp (List.append_eq_nil.mp hp.symm).1 with ⟨-, h2⟩
      exact h2
  | cons b bs ih =>
    simp only [hasSub, Bool.or_eq_true, hasPre_iff, ih]
    constructor
    · rintro (⟨t, ht⟩ | ⟨pre, post, hp⟩)
      · exact ⟨[], t, by simp [ht]⟩
      · exact ⟨b :: pre, post, by simp [hp]⟩
    · rintro ⟨pre, post, hp⟩
      cases pre with
      | nil => exact Or.inl ⟨post, by simpa using hp⟩
      | cons c cs =>
        simp only [List.cons_append, List.cons.injEq] at hp
        exact Or.inr ⟨cs, post, hp.2⟩

/-- C6: `detect_dont_know` returns `true` exactly when some phrase of the
fixed table occurs, case-insensitively, as a contiguous substring of the
response text at any position; it returns `false` when no listed phrase
occurs.  The function is pure by construction: it depends only on the
response text and the static `dont_know_phrases` table. -/
theorem detect_dont_know_iff (text : String) :
    detect_dont_know text = true ↔
      ∃ p ∈ dont_know_phrases, ∃ pre post : List Char,
        (pyLower text).data = pre ++ (pyLower p).data ++ post := by
  simp only [detect_dont_know, List.any_eq_true, strHasSub, hasSub_iff]

/-- C9: with no search results (`None`), the enhanced prompt is exactly
the fixed opening instruction, the verbatim original query (framed by the
fixed question label), the fixed "No search results are available."
notice, and the fixed closing instruction about citing sources and
falling back to the model's own knowledge. -/
theorem enhance_prompt_none_shape (q : String) :
    enhance_prompt_with_search_results q none =
      prompt_opening ++ "User's original question: " ++ q ++ "\n\n" ++
        no_results_notice ++ prompt_closing := rfl

/-- C10: `enhance_prompt_with_search_results` tests the optional
search-results dict by Python truthiness, so the structurally present but
empty dict `{}` takes the same branch as an absent argument: the enhanced
prompt is identical to the `None` case (the no-results notice, not a
formatted results block). -/
theorem enhance_prompt_empty_eq_none (q : String) :
    enhance_prompt_with_search_results q (some SearchResponse.empty) =
      enhance_prompt_with_search_results q none := rfl

theorem make_tavily_request_ok_of_no_raise (env : SearchEnv) (endpoint : String)
    (payload : List (String × String))
    (h : ∀ k, (env.http k).isRaised = false) :
    ∀ (fuel retries : Nat), MAX_RETRIES - retries ≤ fuel →
      ∃ r, make_tavily_request env endpoint payload retries = Except.ok r := by
  intro fuel
  induction fuel with
  | zero =>
    intro retries hle
    have hnlt : ¬ retries < MAX_RETRIES := by
      simp only [MAX_RETRIES] at hle ⊢; omega
    unfold make_tavily_request
    cases hs : env.secret retries with
    | error e => simp [hs]
    | ok s =>
      cases ht : env.http retries with
      | success resp => simp [hs, ht]
      | raised msg =>
        have hr := h retries
        rw [ht] at hr
        simp [HttpOutcome.isRaised] at hr
      | httpError msg => simp [hs, ht, hnlt]
  | succ n ih =>
    intro retries hle
    unfold make_tavily_request
    cases hs : env.secret retries with
    | error e => simp [hs]
    | ok s =>
      cases ht : env.http retries with
      | success resp => simp [hs, ht]
      | raised msg =>
        have hr := h retries
        rw [ht] at hr
        simp [HttpOutcome.isRaised] at hr
      | httpError msg =>
        by_cases hlt : retries < MAX_RETRIES
        · simp only [hs, ht, if_pos hlt]
          exact ih (retries + 1) (by simp only [MAX_RETRIES] at *; omega)
        · simp [hs, ht, hlt]

/-- An environment whose first HTTP attempt gets a 200 response with a
body that is not valid JSON: `urlopen` and `read` succeed, but
`json.loads` raises `json.JSONDecodeError` (a `ValueError`), which the
`except urllib.error.HTTPError` clause of `make_tavily_request` does not
catch. -/
def envParseFailure : SearchEnv where
  secret := fun _ => Except.ok (some "tavily-key")
  http := fun _ => HttpOutcome.raised "Expecting value: line 1 column 1 (char 0)"

/-- C3 counterexample: `search` does not return a `SearchResponse` for
every failure mode — with a response body that fails JSON parsing, the
resulting exception propagates past `search`'s boundary (the code catches
only `urllib.error.HTTPError`). -/
theorem search_raises_on_parse_failure :
    search envParseFailure "anything" [] =
      Except.error "Expecting value: line 1 column 1 (char 0)" := by
  simp [search, make_tavily_request, envParseFailure]

/-- C3 amended: `search` returns a `SearchResponse` value (with `error`
set on failure) and never raises, provided no attempt raises an exception
other than `urllib.error.HTTPError`; secret-fetch failures and HTTP-status
failures are always converted to returned `error` values, but any other
exception of an attempt (connection-level `URLError`, body decode or JSON
parse failure) propagates out of `search`. -/
theorem search_total_unless_non_http_exception (env : SearchEnv) (q : String)
    (ps : List (String × Option String))
    (h : ∀ k, (env.http k).isRaised = false) :
    ∃ r, search env q ps = Except.ok r := by
  unfold search
  exact make_tavily_request_ok_of_no_raise env "search" _ h MAX_RETRIES 0 (by omega)

/-- An environment in which every HTTP attempt raises `HTTPError`
(non-2xx status) and the API key fetch always succeeds. -/
def envEveryAttemptHttpError : SearchEnv where
  secret := fun _ => Except.ok (some "tavily-key")
  http := fun _ => HttpOutcome.httpError "HTTP Error 500: Internal Server Error"

/-- Witness for the amended C3 theorem at a concrete always-failing (but
never-raising) environment. -/
theorem search_total_unless_non_http_exception_witness :
    ∃ r, search envEveryAttemptHttpError "q" [] = Except.ok r :=
  search_total_unless_non_http_exception envEveryAttemptHttpError "q" []
    (fun _ => rfl)

/-- C4: when the API key is always available and every HTTP attempt fails
with an `HTTPError`, `search` makes exactly `MAX_RETRIES + 1 = 4` HTTP
attempts (the initial attempt plus 3 retries; the backoff sleeps between
consecutive attempts only affect wall-clock time and are outside the
embedding) and then returns the dict
`{"error": "API request failed after 3 retries: " ++ str(e)}` built from
the last attempt's exception — it does not raise and issues no fifth
request. -/
theorem search_exhausts_retries (env : SearchEnv) (q : String)
    (ps : List (String × Option String)) (m : Nat → String)
    (hsec : ∀ k, k ≤ MAX_RETRIES → ∃ s, env.secret k = Except.ok s)
    (hhttp : ∀ k, k ≤ MAX_RETRIES → env.http k = HttpOutcome.httpError (m k)) :
    search env q ps =
      Except.ok (SearchResponse.onlyError ("API request failed after 3 retries: " ++ m 3))
    ∧ tavily_http_attempts env 0 = 4 := by
  obtain ⟨s0, h0⟩ := hsec 0 (by decide)
  obtain ⟨s1, h1⟩ := hsec 1 (by decide)
  obtain ⟨s2, h2⟩ := hsec 2 (by decide)
  obtain ⟨s3, h3⟩ := hsec 3 (by decide)
  have t0 := hhttp 0 (by decide)
  have t1 := hhttp 1 (by decide)
  have t2 := hhttp 2 (by decide)
  have t3 := hhttp 3 (by decide)
  have hmsg : ("API request failed after " ++ toString 3 ++ " retries: " : String) =
      "API request failed after 3 retries: " := rfl
  constructor
  · simp [search, make_tavily_request, MAX_RETRIES, h0, h1, h2, h3, t0, t1, t2, t3, hmsg]
  · simp [tavily_http_attempts, MAX_RETRIES, h0, h1, h2, h3, t0, t1, t2, t3]

/-- Witness for C4 at a concrete environment whose four attempts all fail
with the same HTTP 500 error. -/
theorem search_exhausts_retries_witness :
    search envEveryAttemptHttpError "q" [] =
      Except.ok (SearchResponse.onlyError
        ("API request failed after 3 retries: " ++ "HTTP Error 500: Internal Server Error"))
    ∧ tavily_http_attempts envEveryAttemptHttpError 0 = 4 :=
  search_exhausts_retries envEveryAttemptHttpError "q" []
    (fun _ => "HTTP Error 500: Internal Server Error")
    (fun _ _ => ⟨some "tavily-key", rfl⟩) (fun _ _ => rfl)

/-- C5: when the API-key fetch of the first attempt raises (the
`TAVILY_API_KEY_SECRET_ARN` variable unset, or the secret-store call
failing — the two `get_tavily_api_key` conjuncts), `search` returns
immediately with the dict `{"error": "Failed to get API key: " ++ str(e)}`:
no retry happens and no HTTP request is issued at all. -/
theorem search_secret_failure (env : SearchEnv) (q : String)
    (ps : List (String × Option String)) (e : String)
    (h : env.secret 0 = Except.error e) :
    (search env q ps =
        Except.ok (SearchResponse.onlyError ("Failed to get API key: " ++ e))
      ∧ tavily_http_attempts env 0 = 0)
    ∧ (∀ senv : SecretEnv, senv.secret_arn = none →
        get_tavily_api_key senv =
          Except.error "TAVILY_API_KEY_SECRET_ARN environment variable is not set")
    ∧ (∀ (senv : SecretEnv) (arn ex : String), senv.secret_arn = some arn → arn ≠ "" →
        senv.get_secret_value = Except.error ex →
        get_tavily_api_key senv = Except.error ex) := by
  refine ⟨⟨?_, ?_⟩, ?_, ?_⟩
  · simp [search, make_tavily_request, h]
  · simp [tavily_http_attempts, h]
  · intro senv hs
    simp [get_tavily_api_key, hs]
  · intro senv arn ex hs hne hg
    simp [get_tavily_api_key, hs, hne, hg]

/-- An environment whose API-key fetch raises on every attempt (e.g. the
secret ARN environment variable is unset). -/
def envSecretFailure : SearchEnv where
  secret := fun _ =>
    Except.error "TAVILY_API_KEY_SECRET_ARN environment variable is not set"
  http := fun _ => HttpOutcome.success SearchResponse.empty

/-- Witness for C5 at a concrete environment with a failing key fetch. -/
theorem search_secret_failure_witness :
    search envSecretFailure "q" [] =
      Except.ok (SearchResponse.onlyError
        ("Failed to get API key: " ++
          "TAVILY_API_KEY_SECRET_ARN environment variable is not set"))
    ∧ tavily_http_attempts envSecretFailure 0 = 0 :=
  (search_secret_failure envSecretFailure "q" []
    "TAVILY_API_KEY_SECRET_ARN environment variable is not set" rfl).1

/-- C7: whenever the first base-adapter response is classified confident
(`detect_dont_know` is `false` on its content), `run` returns that first
response unchanged.  `env` is otherwise unconstrained, so the result does
not depend on the search environment or on a second base-adapter call:
no search is performed, and the response — content and metadata — is
returned byte-identical, with no `webSearch` key added. -/
theorem run_confident_unchanged (env : OrchEnv) (prompt : String) (r : ChatResponse)
    (h1 : env.baseRun 0 prompt = Except.ok r)
    (h2 : detect_dont_know (r.content.getD "") = false) :
    BedrockChatWithSearchAdapter.run env prompt = Except.ok r := by
  simp [BedrockChatWithSearchAdapter.run, h1, h2]

/-- A confident base-adapter response. -/
def respConfident : ChatResponse :=
  { content := some "The capital of France is Paris.", metadata := none }

/-- A low-confidence base-adapter response. -/
def respDontKnow : ChatResponse :=
  { content := some "I don't know the answer.", metadata := none }

/-- A second-call response carrying a (webSearch-free) metadata mapping. -/
def respFinalMeta : ChatResponse :=
  { content := some "According to the search results, the answer is 42.",
    metadata := some { webSearch := none, rest := [] } }

/-- Orchestrator environment whose base adapter answers confidently. -/
def envConfident : OrchEnv where
  baseRun := fun _ _ => Except.ok respConfident
  searchEnv :=
    { secret := fun _ => Except.ok (some "tavily-key"),
      http := fun _ => HttpOutcome.success SearchResponse.empty }

/-- Witness for C7 at a concrete confident environment. -/
theorem run_confident_unchanged_witness :
    BedrockChatWithSearchAdapter.run envConfident "What is the capital of France?" =
      Except.ok respConfident :=
  run_confident_unchanged envConfident "What is the capital of France?"
    respConfident rfl (by decide)

/-- C2: when the first response is low-confidence and the search step
returns a dict with an `"error"` key, `run` returns the first response
unchanged.  `env.baseRun 1` is unconstrained by the hypotheses, so the
outcome does not depend on it: no prompt augmentation result is used, no
second base-adapter call influences the result, and no `webSearch`
metadata is added. -/
theorem run_search_error_aborts (env : OrchEnv) (prompt : String) (r : ChatResponse)
    (sr : SearchResponse) (e : String)
    (h1 : env.baseRun 0 prompt = Except.ok r)
    (h2 : detect_dont_know (r.content.getD "") = true)
    (h3 : search env.searchEnv prompt [] = Except.ok sr)
    (h4 : sr.error = some e) :
    BedrockChatWithSearchAdapter.run env prompt = Except.ok r := by
  simp [BedrockChatWithSearchAdapter.run, h1, h2, h3, h4]

/-- Orchestrator environment: low-confidence first answer, search step
returning an error dict (failed key fetch), and a second-call response
that would differ from the first if it were ever used. -/
def envSearchError : OrchEnv where
  baseRun := fun i _ =>
    match i with
    | 0 => Except.ok respDontKnow
    | _ => Except.ok respFinalMeta
  searchEnv :=
    { secret := fun _ => Except.error "boom",
      http := fun _ => HttpOutcome.success SearchResponse.empty }

/-- Witness for C2 at a concrete environment with a failing search. -/
theorem run_search_error_aborts_witness :
    BedrockChatWithSearchAdapter.run envSearchError "Who won yesterday?" =
      Except.ok respDontKnow :=
  run_search_error_aborts envSearchError "Who won yesterday?" respDontKnow
    (SearchResponse.onlyError "Failed to get API key: boom")
    "Failed to get API key: boom" rfl (by decide)
    (by simp [search, make_tavily_request, envSearchError, SearchResponse.onlyError])
    rfl

theorem run_ok_of_first_ok (env : OrchEnv) (prompt : String) (r : ChatResponse)
    (h1 : env.baseRun 0 prompt = Except.ok r) :
    ∃ r', BedrockChatWithSearchAdapter.run env prompt = Except.ok r' := by
  simp only [BedrockChatWithSearchAdapter.run, h1]
  repeat' split
  all_goals exact ⟨_, rfl⟩

/-- C1: the orchestrator's exception policy.  In order of the conjuncts:
an exception of the first base-adapter call propagates out of `run`
unchanged; whenever the first call returns normally, `run` returns
normally (so nothing raised later can escape); an exception raised inside
the fallback path by the search step is absorbed and the first response
is returned unchanged; and an exception raised by the second base-adapter
call (after an error-free search) is likewise absorbed, returning the
first response unchanged.  The prompt-augmentation step
(`enhance_prompt_with_search_results`) is a total function in the model,
so it is covered by the second conjunct. -/
theorem run_exception_policy (env : OrchEnv) (prompt : String) :
    (∀ e, env.baseRun 0 prompt = Except.error e →
      BedrockChatWithSearchAdapter.run env prompt = Except.error e)
    ∧ (∀ r, env.baseRun 0 prompt = Except.ok r →
        ∃ r', BedrockChatWithSearchAdapter.run env prompt = Except.ok r')
    ∧ (∀ r e, env.baseRun 0 prompt = Except.ok r →
        detect_dont_know (r.content.getD "") = true →
        search env.searchEnv prompt [] = Except.error e →
        BedrockChatWithSearchAdapter.run env prompt = Except.ok r)
    ∧ (∀ r sr e, env.baseRun 0 prompt = Except.ok r →
        detect_dont_know (r.content.getD "") = true →
        search env.searchEnv prompt [] = Except.ok sr →
        sr.error = none →
        env.baseRun 1 (enhance_prompt_with_search_results prompt (some sr)) =
          Except.error e →
        BedrockChatWithSearchAdapter.run env prompt = Except.ok r) := by
  refine ⟨?_, ?_, ?_, ?_⟩
  · intro e h
    simp [BedrockChatWithSearchAdapter.run, h]
  · intro r h1
    exact run_ok_of_first_ok env prompt r h1
  · intro r e h1 h2 h3
    simp [BedrockChatWithSearchAdapter.run, h1, h2, h3]
  · intro r sr e h1 h2 h3 h4 h5
    simp [BedrockChatWithSearchAdapter.run, h1, h2, h3, h4, h5]

/-- Orchestrator environment: low-confidence first answer and a search
step that raises (connection failure, an exception `search` propagates). -/
def envSearchRaises : OrchEnv where
  baseRun := fun i _ =>
    match i with
    | 0 => Except.ok respDontKnow
    | _ => Except.ok respFinalMeta
  searchEnv :=
    { secret := fun _ => Except.ok (some "tavily-key"),
      http := fun _ =>
        HttpOutcome.raised "<urlopen error [Errno 111] Connection refused>" }

/-- Witness for C1: at a concrete environment whose search step raises,
`run` absorbs the exception and returns the first response. -/
theorem run_exception_policy_witness :
    BedrockChatWithSearchAdapter.run envSearchRaises "Who won yesterday?" =
      Except.ok respDontKnow :=
  (run_exception_policy envSearchRaises "Who won yesterday?").2.2.1 respDontKnow
    "<urlopen error [Errno 111] Connection refused>" rfl (by decide)
    (by simp [search, make_tavily_request, envSearchRaises])

/-- C8: on the fully successful fallback path (low-confidence first
answer, error-free search, second base-adapter call returning normally),
`run` returns the second response; when that response carries a
`"metadata"` mapping, its `"webSearch"` entry is set to
`{performed: true, query: the original prompt, resultsCount: the length
of the search results list}` with all other metadata entries kept, and
when it carries none, the second response is returned as-is. -/
theorem run_fallback_success_merges_metadata (env : OrchEnv) (prompt : String)
    (r : ChatResponse) (sr : SearchResponse) (fr : ChatResponse)
    (h1 : env.baseRun 0 prompt = Except.ok r)
    (h2 : detect_dont_know (r.content.getD "") = true)
    (h3 : search env.searchEnv prompt [] = Except.ok sr)
    (h4 : sr.error = none)
    (h5 : env.baseRun 1 (enhance_prompt_with_search_results prompt (some sr)) =
      Except.ok fr) :
    (fr.metadata = none → BedrockChatWithSearchAdapter.run env prompt = Except.ok fr)
    ∧ (∀ md, fr.metadata = some md →
        BedrockChatWithSearchAdapter.run env prompt =
          Except.ok { fr with metadata := some { md with webSearch := some {
            performed := true, query := prompt,
            resultsCount := (sr.results.getD []).length } } }) := by
  constructor
  · intro hm
    simp [BedrockChatWithSearchAdapter.run, h1, h2, h3, h4, h5, hm]
  · intro md hm
    simp [BedrockChatWithSearchAdapter.run, h1, h2, h3, h4, h5, hm]

/-- A successful one-result search response. -/
def srAtlantis : SearchResponse :=
  { error := none, query := some "What is the capital of Atlantis?",
    time := some "0.42",
    results := some [{ title := some "Atlantis", url := some "http://x",
                       content := some "fictional" }] }

/-- Orchestrator environment for the fully successful fallback path. -/
def envFallbackSuccess : OrchEnv where
  baseRun := fun i _ =>
    match i with
    | 0 => Except.ok respDontKnow
    | _ => Except.ok respFinalMeta
  searchEnv :=
    { secret := fun _ => Except.ok (some "tavily-key"),
      http := fun _ => HttpOutcome.success srAtlantis }

/-- Witness for C8 at a concrete successful fallback: the second response
carries a metadata mapping and acquires the `webSearch` entry with
`resultsCount := 1`. -/
theorem run_fallback_success_merges_metadata_witness :
    BedrockChatWithSearchAdapter.run envFallbackSuccess
        "What is the capital of Atlantis?" =
      Except.ok { respFinalMeta with metadata := some {
        webSearch := some {
          performed := true
          query := "What is the capital of Atlantis?"
          resultsCount := 1 }
        rest := [] } } :=
  (run_fallback_success_merges_metadata envFallbackSuccess
    "What is the capital of Atlantis?" respDontKnow srAtlantis respFinalMeta
    rfl (by decide)
    (by simp [search, make_tavily_request, envFallbackSuccess])
    rfl rfl).2 { webSearch := none, rest := [] } rfl

end WebSearch
